import Mathlib

/-!
Verification of the city-companion backend core: gamification formulas,
narrative generation, the recommendation engine, and the user/route state
operations (signup, visit-place, create-route, delete-route, login).
Each definition is a shallow embedding of the corresponding Python
function; theorems settle the specification claims against them.
-/

namespace CityApp

/-- A place document as stored in the `places` collection
(`models/place.py`; only the fields the verified code reads).
`ai_summary` is `Option` because the handlers access it with `dict.get`,
which distinguishes an absent key from an empty string. -/
structure Place where
  name : String
  category : String
  ai_summary : Option String
  rating : ℚ
  walking_time : Int
  driving_time : Int
  price_level : Int
  tags : List String
  vibe : List String
deriving DecidableEq

/-! ## Gamification (`utils/gamification.py`) -/

/-- `calculate_street_cred` from `utils/gamification.py`:
`len(visited_places) * 10 + routes_completed * 25`. -/
def calculate_street_cred (visited_places : List String) (routes_completed : Int) : Int :=
  let places_cred := (visited_places.length : Int) * 10
  let routes_cred := routes_completed * 25
  places_cred + routes_cred

/-- `calculate_level` from `utils/gamification.py`:
`math.floor(street_cred / 100) + 1` (floor division). -/
def calculate_level (street_cred : Int) : Int :=
  Int.fdiv street_cred 100 + 1

/-! ## Narrative generation (`utils/narrative.py`) -/

/-- The summary-shortening step of `generate_route_narrative`:
`summary[:97] + "..."` when `len(summary) > 100`. -/
def truncateSummary (s : String) : String :=
  if s.length > 100 then String.mk (s.data.take 97) ++ "..." else s

/-- Opening sentence for the first place of a multi-place route. -/
def openingSentence (p : Place) : String :=
  "Begin your journey at " ++ p.name ++ ", where " ++
    p.ai_summary.getD "your adventure starts" ++ "."

/-- Connecting sentence for an interior place of a multi-place route. -/
def middleSentence (p : Place) : String :=
  "From there, let the path guide you to " ++ p.name ++ ", " ++
    truncateSummary (p.ai_summary.getD "new experiences await") ++ "."

/-- Closing sentence for the last place of a multi-place route. -/
def closingSentence (p : Place) : String :=
  "Finally, complete your adventure at " ++ p.name ++ ", " ++
    truncateSummary (p.ai_summary.getD "your journey concludes") ++ "."

/-- `generate_route_narrative` from `utils/narrative.py`. -/
def generate_route_narrative : List Place → String
  | [] => "Your journey awaits!"
  | [place] =>
      "Visit " ++ place.name ++ ", where " ++
        place.ai_summary.getD "adventure awaits" ++ "."
  | p0 :: p1 :: rest =>
      let narrative_parts :=
        openingSentence p0 ::
          ((p1 :: rest).dropLast.map middleSentence ++
            [closingSentence ((p1 :: rest).getLastD p1)])
      String.intercalate " " narrative_parts

/-! ## Recommendation engine (`utils/recommendations.py`) -/

/-- `get_mood_synonyms` from `utils/recommendations.py` (dict lookup with
default `[]`). -/
def get_mood_synonyms (mood : String) : List String :=
  if mood = "relaxed" then ["peaceful", "serene", "calm", "quiet", "tranquil", "cozy"]
  else if mood = "adventurous" then ["exciting", "bold", "daring", "playful", "energetic"]
  else if mood = "curious" then ["discovery", "exploring", "intellectual", "thought-provoking"]
  else if mood = "energetic" then ["lively", "vibrant", "dynamic", "bustling", "playful"]
  else if mood = "creative" then ["inspiring", "artistic", "innovative", "modern"]
  else if mood = "romantic" then ["intimate", "elegant", "beautiful", "warm"]
  else if mood = "social" then ["community", "friendly", "lively", "bustling"]
  else if mood = "peaceful" then ["serene", "quiet", "calm", "tranquil", "relaxed"]
  else if mood = "inspired" then ["inspiring", "creative", "thought-provoking", "modern"]
  else if mood = "nostalgic" then ["vintage", "timeless", "reflective", "classic"]
  else []

/-- Python's `str.lower()`: lower-case every character. Equal to
`String.toLower` (see `strLower_eq_toLower`); spelled through
`List.map` so that concrete inputs evaluate by kernel reduction. -/
def strLower (s : String) : String :=
  String.mk (s.data.map Char.toLower)

/-- Does `sub` occur contiguously in `l` (at any position)? -/
def containsSeq (sub : List Char) : List Char → Bool
  | [] => sub.isEmpty
  | c :: cs => sub.isPrefixOf (c :: cs) || containsSeq sub cs

/-- Python's substring test `sub in s` on strings (contiguous occurrence;
the empty string occurs in every string). -/
def strContains (s sub : String) : Bool :=
  containsSeq sub.data s.data

/-- Mood component of the score as the code computes it: guarded by
`if mood_lower:` (an empty lowered mood contributes nothing), then `+2`
on an exact vibe match, else `+1` per vibe word in the synonym list. -/
def moodComponent (mood_lower : String) (p : Place) : Int :=
  if mood_lower ≠ "" then
    let place_vibes := p.vibe.map strLower
    if mood_lower ∈ place_vibes then 2
    else
      let mood_synonyms := get_mood_synonyms mood_lower
      (place_vibes.countP (fun vibe => vibe ∈ mood_synonyms) : Int)
  else 0

/-- Interest component: for each lowered interest, `+1` if it is a member
of the lowered tag list and `+1` if it is a substring of the lowered
category (code guards with `if interests_lower:`, which only skips the
empty loop). -/
def interestComponent (interests_lower : List String) (p : Place) : Int :=
  if interests_lower ≠ [] then
    let place_tags := p.tags.map strLower
    let place_category := strLower p.category
    (interests_lower.map (fun interest =>
      (if interest ∈ place_tags then (1 : Int) else 0) +
      (if strContains place_category interest then (1 : Int) else 0))).sum
  else 0

/-- Rating bonus: `+2` if rating ≥ 4.8, else `+1` if rating ≥ 4.5.
The thresholds are written with `mkRat` so that concrete inputs evaluate
by kernel reduction; `ratingThresholds_eq` identifies them with the
literals 4.8 and 4.5 of the source. -/
def ratingBonus (p : Place) : Int :=
  if p.rating ≥ mkRat 48 10 then 2 else if p.rating ≥ mkRat 45 10 then 1 else 0

/-- Per-place score of `generate_recommendations` (the loop body at
lines 53–84 of `utils/recommendations.py`). -/
def placeScore (mood : String) (interests : List String) (p : Place) : Int :=
  let mood_lower := strLower mood
  let interests_lower := interests.map strLower
  moodComponent mood_lower p + interestComponent interests_lower p + ratingBonus p

/-- Mood component as the specification words it (claim comparison
definition): `+2` on an exact lower-cased match against a vibe word,
otherwise `+1` per vibe word in the synonym-table entry, with no guard
on the mood being nonempty. -/
def moodComponentSpec (mood_lower : String) (p : Place) : Int :=
  let place_vibes := p.vibe.map strLower
  if mood_lower ∈ place_vibes then 2
  else (place_vibes.countP (fun vibe => vibe ∈ get_mood_synonyms mood_lower) : Int)

/-- Interest component as the specification words it (claim comparison
definition): a plain sum over the interest terms, no emptiness guard. -/
def interestComponentSpec (interests_lower : List String) (p : Place) : Int :=
  (interests_lower.map (fun interest =>
    (if interest ∈ p.tags.map strLower then (1 : Int) else 0) +
    (if strContains (strLower p.category) interest then (1 : Int) else 0))).sum

/-- Per-place score as claimed by the specification (claim comparison
definition): mood component + interest component + quality bonus. -/
def specPlaceScore (mood : String) (interests : List String) (p : Place) : Int :=
  moodComponentSpec (strLower mood) p +
    interestComponentSpec (interests.map strLower) p + ratingBonus p

/-- Stable insertion of a scored place into a descending-sorted list:
the new element goes before every element of score ≤ its own and after
every element of strictly greater score, so earlier-catalog elements of
equal score stay first. -/
def insertScoredDesc (x : Place × Int) : List (Place × Int) → List (Place × Int)
  | [] => [x]
  | y :: ys => if x.2 ≥ y.2 then x :: y :: ys else y :: insertScoredDesc x ys

/-- Stable sort by score descending, modelling Python's stable
`list.sort(key=lambda x: x["score"], reverse=True)`. -/
def sortScoredDesc : List (Place × Int) → List (Place × Int)
  | [] => []
  | x :: xs => insertScoredDesc x (sortScoredDesc xs)

/-- The hard filter of `generate_recommendations`: the Mongo query
`{"walking_time": {"$lte": time_available}, "price_level": {"$lte":
price_level}}`. -/
def recPassesFilter (time_available price_level : Int) (p : Place) : Bool :=
  p.walking_time ≤ time_available && p.price_level ≤ price_level

/-- The scored list `generate_recommendations` builds: every place that
passes the hard filter, in catalog order, paired with its score. -/
def scoredPlaces (places : List Place) (mood : String)
    (time_available : Int) (price_level : Int) (interests : List String) :
    List (Place × Int) :=
  (places.filter (recPassesFilter time_available price_level)).map
    (fun p => (p, placeScore mood interests p))

/-- `generate_recommendations` from `utils/recommendations.py`:
filter by `walking_time ≤ time_available` and `price_level ≤ price_level`
(the Mongo query), early-return on an empty match, score, stable-sort by
score descending, take 6, and drop the internal score from the output. -/
def generate_recommendations (places : List Place) (mood : String)
    (time_available : Int) (price_level : Int) (interests : List String) : List Place :=
  let places_list := places.filter (recPassesFilter time_available price_level)
  if places_list.isEmpty then []
  else
    let scored_places := places_list.map (fun p => (p, placeScore mood interests p))
    let sorted_places := sortScoredDesc scored_places
    (sorted_places.take 6).map Prod.fst

/-! ## User and route state (`routers/users.py`, `routers/routes.py`,
`routers/auth.py`), sequential single-user model: the document store is
the state, each handler is a state transformer. -/

/-- The mutable fields of a user document that the verified handlers
touch (`street_cred`, `visited_places`). -/
structure UserDoc where
  street_cred : Int
  visited_places : List String
deriving DecidableEq

/-- A route document as inserted by `create_route`
(`routers/routes.py`, lines 95–103); `id` models the ObjectId that
`insert_one` generates. -/
structure RouteDoc where
  id : Nat
  name : String
  place_ids : List Int
  total_walking_time : Int
  total_driving_time : Int
  narrative : String
deriving DecidableEq

/-- The slice of the document store the claims observe: the current
user's document, that user's routes, and the ObjectId counter for route
inserts. -/
structure AppState where
  user : UserDoc
  routes : List RouteDoc
  nextRouteId : Nat
deriving DecidableEq

/-- The user document `signup` inserts (`routers/auth.py`, lines 42–58):
Street Cred 0, no visited places — and a fresh user owns no routes. -/
def signupState : AppState :=
  { user := { street_cred := 0, visited_places := [] }
    routes := []
    nextRouteId := 0 }

/-- Outcome of `visit_place` (`routers/users.py`). A missing or invalid
place id aborts with an error (the handler's try/except turns both into
an HTTP error); otherwise the response carries the (possibly updated)
Street Cred and visited list. -/
inductive VisitOutcome where
  | invalidPlace
  | ok (streetCred : Int) (visitedPlaces : List String)
deriving DecidableEq

/-- `visit_place` from `routers/users.py` (lines 218–288):
abort if the place does not resolve; if the place is already visited,
return the current state unchanged; otherwise append the id and add 10
Street Cred. `placeExists` abstracts the `places.find_one` lookup. -/
def visit_place (placeExists : String → Bool) (st : AppState) (place_id : String) :
    VisitOutcome × AppState :=
  if ¬ placeExists place_id then (.invalidPlace, st)
  else if place_id ∈ st.user.visited_places then
    (.ok st.user.street_cred st.user.visited_places, st)
  else
    let new_street_cred := st.user.street_cred + 10
    let new_visited_places := st.user.visited_places ++ [place_id]
    (.ok new_street_cred new_visited_places,
      { st with user := { street_cred := new_street_cred
                          visited_places := new_visited_places } })

/-- Outcome of `create_route` (`routers/routes.py`). `typeError` models
the Python `TypeError` that `len(None)` raises when `place_ids` is
omitted/null; `validationError` is the 400 "Route must include at least
2 places"; `notFound` is the 404 "Place not found". -/
inductive CreateOutcome where
  | typeError
  | validationError
  | notFound (place_id : Int)
  | ok (route : RouteDoc)
deriving DecidableEq

/-- The lookup loop of `create_route` (lines 77–85): resolve the ids in
request order, aborting with the first id that `places.find_one` cannot
resolve. -/
def resolvePlaces (catalog : Int → Option Place) : List Int → Except Int (List Place)
  | [] => .ok []
  | place_id :: rest =>
      match catalog place_id with
      | none => .error place_id
      | some p =>
          match resolvePlaces catalog rest with
          | .error q => .error q
          | .ok ps => .ok (p :: ps)

/-- `create_route` from `routers/routes.py` (lines 49–142): guard on
fewer than 2 place ids, resolve every id (abort with NotFound on the
first failure, before any insert), sum the walking/driving times, build
the narrative, insert the route, then recompute the owner's Street Cred
from scratch as `calculate_street_cred(visited_places, routes_count)`
with `routes_count` counted after the insert. A `none` body field models
`place_ids=None`, on which `len(...)` raises `TypeError`. -/
def create_route (catalog : Int → Option Place) (st : AppState)
    (name : String) (place_ids : Option (List Int)) : CreateOutcome × AppState :=
  match place_ids with
  | none => (.typeError, st)
  | some pids =>
    if pids.length < 2 then (.validationError, st)
    else
      match resolvePlaces catalog pids with
      | .error q => (.notFound q, st)
      | .ok place_objects =>
          let total_walking_time := (place_objects.map Place.walking_time).sum
          let total_driving_time := (place_objects.map Place.driving_time).sum
          let narrative := generate_route_narrative place_objects
          let route_doc : RouteDoc :=
            { id := st.nextRouteId
              name := name
              place_ids := pids
              total_walking_time := total_walking_time
              total_driving_time := total_driving_time
              narrative := narrative }
          let routes' := st.routes ++ [route_doc]
          let routes_count := (routes'.length : Int)
          let new_street_cred := calculate_street_cred st.user.visited_places routes_count
          (.ok route_doc,
            { user := { st.user with street_cred := new_street_cred }
              routes := routes'
              nextRouteId := st.nextRouteId + 1 })

/-- Outcome of `delete_route` (`routers/routes.py`, lines 242–271). -/
inductive DeleteOutcome where
  | notFound
  | deleted
deriving DecidableEq

/-- `delete_route` from `routers/routes.py` (lines 242–271): look the
route up, 404 if absent, else delete it. The handler never touches the
owner's `street_cred`. (Ownership always matches in the single-user
model, as with the mock user in the source.) -/
def delete_route (st : AppState) (route_id : Nat) : DeleteOutcome × AppState :=
  match st.routes.find? (fun r => r.id = route_id) with
  | none => (.notFound, st)
  | some _ =>
      (.deleted, { st with routes := st.routes.filter (fun r => ¬ r.id = route_id) })

/-- The Street Cred invariant of the specification: the stored value
equals `10 × |visited_places| + 25 × (number of the user's routes)`. -/
def credInvariant (st : AppState) : Prop :=
  st.user.street_cred =
    10 * (st.user.visited_places.length : Int) + 25 * (st.routes.length : Int)

instance (st : AppState) : Decidable (credInvariant st) := by
  unfold credInvariant; infer_instance

/-! ## Login (`routers/auth.py`) and request validation
(`models/route.py`). -/

/-- A stored user document as `login` reads it. -/
structure StoredUser where
  password_hash : String
deriving DecidableEq

/-- Outcome of `login`: either an HTTP error with status code and detail
body, or success. -/
inductive LoginResult where
  | err (status : Int) (detail : String)
  | ok
deriving DecidableEq

/-- `login` from `routers/auth.py` (lines 82–129): 401 with detail
"Invalid email or password" when the email resolves to no user, the same
401 when the password hash does not verify, success otherwise.
`findUser` abstracts `users.find_one({"email": ...})` and `verify`
abstracts `verify_password`. -/
def login (findUser : String → Option StoredUser)
    (verify : String → String → Bool) (email password : String) : LoginResult :=
  match findUser email with
  | none => .err 401 "Invalid email or password"
  | some user_doc =>
      if ¬ verify password user_doc.password_hash then
        .err 401 "Invalid email or password"
      else .ok

/-- The `RouteCreate` request model (`models/route.py`, `RouteBase`):
`name` between 1 and 200 characters; `place_ids` optional with default
`None`, its `min_length=2` constraint applying only when a list is
supplied. -/
def routeCreateValid (name : String) (place_ids : Option (List Int)) : Prop :=
  1 ≤ name.length ∧ name.length ≤ 200 ∧
    (match place_ids with
     | none => True
     | some l => 2 ≤ l.length)

/-- Does a `create_route` outcome report the 404 "Place not found"? -/
def CreateOutcome.isNotFound : CreateOutcome → Bool
  | .notFound _ => true
  | _ => false

/-! ## Concrete sample data for witnesses and counterexamples. -/

/-- A sample catalog place. -/
def demoPlace1 : Place :=
  { name := "Hidden Gem Coffee Roasters"
    category := "Cafe"
    ai_summary := some "This intimate cafe feels like a secret only locals know."
    rating := mkRat 49 10
    walking_time := 8
    driving_time := 3
    price_level := 2
    tags := ["coffee", "cozy", "artisan"]
    vibe := ["warm", "intimate", "creative"] }

/-- A second sample catalog place. -/
def demoPlace2 : Place :=
  { name := "Riverside Park"
    category := "Park"
    ai_summary := some "A quiet stretch of green along the water."
    rating := mkRat 42 10
    walking_time := 15
    driving_time := 5
    price_level := 0
    tags := ["nature", "walk"]
    vibe := ["serene", "calm"] }

/-- A sample place whose only vibe word is the empty string. -/
def demoPlaceEmptyVibe : Place :=
  { name := "Blank"
    category := "misc"
    ai_summary := none
    rating := 0
    walking_time := 1
    driving_time := 1
    price_level := 0
    tags := []
    vibe := [""] }

/-- A two-place catalog keyed by the integer ids 1 and 2. -/
def demoCatalog : Int → Option Place :=
  fun place_id =>
    if place_id = 1 then some demoPlace1
    else if place_id = 2 then some demoPlace2
    else none

/-- The state reached from a fresh signup by creating one route over the
two catalog places. -/
def stateAfterOneRoute : AppState :=
  (create_route demoCatalog signupState "Morning loop" (some [1, 2])).2

/-! ## Helper lemmas -/

/-- The `mkRat`-spelled rating thresholds are exactly the source's 4.8
and 4.5. -/
theorem ratingThresholds_eq : (mkRat 48 10 : ℚ) = 4.8 ∧ (mkRat 45 10 : ℚ) = 4.5 :=
  ⟨by norm_num [Rat.mkRat_eq_div], by norm_num [Rat.mkRat_eq_div]⟩

/-- `strLower` agrees with the library's `String.toLower`. -/
theorem strLower_eq_toLower (s : String) : strLower s = s.toLower := by
  rw [String.toLower, String.map_eq]
  rfl

/-- Lower-casing a nonempty string yields a nonempty string. -/
theorem strLower_ne_empty {s : String} (h : s ≠ "") : strLower s ≠ "" := by
  intro hc
  apply h
  have hdata : s.data.map Char.toLower = [] := congrArg String.data hc
  have hnil : s.data = [] := List.map_eq_nil_iff.mp hdata
  cases s
  simp_all

/-- Inserting a scored place permutes consing it. -/
theorem insertScoredDesc_perm (x : Place × Int) (l : List (Place × Int)) :
    (insertScoredDesc x l).Perm (x :: l) := by
  induction l with
  | nil => exact List.Perm.refl _
  | cons y ys ih =>
    unfold insertScoredDesc
    by_cases h : x.2 ≥ y.2
    · rw [if_pos h]
    · rw [if_neg h]
      exact (ih.cons y).trans (List.Perm.swap x y ys)

/-- The stable descending sort permutes its input. -/
theorem sortScoredDesc_perm (l : List (Place × Int)) :
    (sortScoredDesc l).Perm l := by
  induction l with
  | nil => exact List.Perm.refl _
  | cons x xs ih =>
    exact (insertScoredDesc_perm x (sortScoredDesc xs)).trans (ih.cons x)

/-- Inserting into a descending-sorted list keeps it descending-sorted. -/
theorem insertScoredDesc_pairwise {x : Place × Int} {l : List (Place × Int)}
    (h : l.Pairwise (fun a b => b.2 ≤ a.2)) :
    (insertScoredDesc x l).Pairwise (fun a b => b.2 ≤ a.2) := by
  induction l with
  | nil => simp [insertScoredDesc]
  | cons y ys ih =>
    rw [List.pairwise_cons] at h
    obtain ⟨hy, hys⟩ := h
    unfold insertScoredDesc
    by_cases hxy : x.2 ≥ y.2
    · rw [if_pos hxy, List.pairwise_cons]
      refine ⟨?_, List.pairwise_cons.mpr ⟨hy, hys⟩⟩
      intro z hz
      rcases List.mem_cons.mp hz with rfl | hz'
      · exact hxy
      · exact le_trans (hy z hz') hxy
    · rw [if_neg hxy, List.pairwise_cons]
      refine ⟨?_, ih hys⟩
      intro z hz
      have hz2 : z ∈ x :: ys := (insertScoredDesc_perm x ys).mem_iff.mp hz
      rcases List.mem_cons.mp hz2 with rfl | hz'
      · exact le_of_lt (lt_of_not_ge hxy)
      · exact hy z hz'

/-- The stable descending sort yields descending scores. -/
theorem sortScoredDesc_pairwise (l : List (Place × Int)) :
    (sortScoredDesc l).Pairwise (fun a b => b.2 ≤ a.2) := by
  induction l with
  | nil => simp [sortScoredDesc]
  | cons x xs ih => exact insertScoredDesc_pairwise ih

/-- Stability of the insertion step: restricted to any one score class,
inserting is just consing. -/
theorem filter_insertScoredDesc (x : Place × Int) (l : List (Place × Int)) (s : Int) :
    (insertScoredDesc x l).filter (fun y => y.2 == s) =
      ((x :: l).filter (fun y => y.2 == s)) := by
  induction l with
  | nil => rfl
  | cons y ys ih =>
    unfold insertScoredDesc
    by_cases hxy : x.2 ≥ y.2
    · rw [if_pos hxy]
    · rw [if_neg hxy]
      have hlt : x.2 < y.2 := lt_of_not_ge hxy
      by_cases hx : x.2 = s
      · have hyne : ¬ y.2 = s := by omega
        simp only [List.filter_cons, ih]
        simp [hx, hyne]
      · simp only [List.filter_cons, ih]
        simp [hx]

/-- Stability of the sort: each score class keeps its input order. -/
theorem sortScoredDesc_stable (l : List (Place × Int)) (s : Int) :
    (sortScoredDesc l).filter (fun y => y.2 == s) =
      l.filter (fun y => y.2 == s) := by
  induction l with
  | nil => rfl
  | cons x xs ih =>
    show (insertScoredDesc x (sortScoredDesc xs)).filter (fun y => y.2 == s) = _
    rw [filter_insertScoredDesc]
    simp only [List.filter_cons, ih]

/-- If any id in the list fails to resolve, the lookup loop aborts with
an error. -/
theorem resolvePlaces_error_of_missing {catalog : Int → Option Place}
    {pids : List Int} (h : ∃ q ∈ pids, catalog q = none) :
    ∃ q, resolvePlaces catalog pids = .error q := by
  induction pids with
  | nil =>
    obtain ⟨q, hq, _⟩ := h
    exact absurd hq (List.not_mem_nil q)
  | cons p rest ih =>
    obtain ⟨q, hq, hnone⟩ := h
    unfold resolvePlaces
    cases hc : catalog p with
    | none => exact ⟨p, rfl⟩
    | some pl =>
      have hqrest : q ∈ rest := by
        rcases List.mem_cons.mp hq with rfl | h'
        · rw [hc] at hnone; cases hnone
        · exact h'
      obtain ⟨q', hq'⟩ := ih ⟨q, hqrest, hnone⟩
      exact ⟨q', by rw [hq']⟩

/-- The code's interest component equals the spec's: the emptiness guard
only skips an empty sum. -/
theorem interestComponent_eq_spec (interests_lower : List String) (p : Place) :
    interestComponent interests_lower p = interestComponentSpec interests_lower p := by
  cases interests_lower with
  | nil => simp [interestComponent, interestComponentSpec]
  | cons i is => simp [interestComponent, interestComponentSpec]

/-- On a nonempty lowered mood, the code's mood component equals the
spec's. -/
theorem moodComponent_eq_spec {mood_lower : String} (h : mood_lower ≠ "") (p : Place) :
    moodComponent mood_lower p = moodComponentSpec mood_lower p := by
  unfold moodComponent moodComponentSpec
  rw [if_pos h]

/-! ## Claim theorems -/

/-- C8: `calculate_street_cred` returns exactly `10*visitedCount +
25*routesCompleted`; `calculate_level` returns `floor(streetCred/100)+1`
(which for nonnegative input is truncating division plus one), levels
start at 1 (0→1, 100→2, 250→3), and the level increments at a step
exactly when the new total is a multiple of 100. -/
theorem gamification_formulas_match :
    (∀ (v : List String) (r : Int),
      calculate_street_cred v r = 10 * (v.length : Int) + 25 * r)
    ∧ calculate_level 0 = 1 ∧ calculate_level 100 = 2 ∧ calculate_level 250 = 3
    ∧ (∀ c : Int, 0 ≤ c → calculate_level c = c / 100 + 1)
    ∧ (∀ c : Int, 0 ≤ c →
        (calculate_level (c + 1) = calculate_level c + 1 ↔ (100 : Int) ∣ (c + 1))) := by
  refine ⟨?_, by decide, by decide, by decide, ?_, ?_⟩
  · intro v r
    unfold calculate_street_cred
    ring
  · intro c _
    unfold calculate_level
    rw [Int.fdiv_eq_ediv _ (by norm_num)]
  · intro c _
    unfold calculate_level
    rw [Int.fdiv_eq_ediv _ (by norm_num), Int.fdiv_eq_ediv _ (by norm_num)]
    omega

/-- Witness for C8: the level increments from 99 to 100 because 100 is a
multiple of 100. -/
theorem gamification_formulas_match_witness :
    calculate_level (99 + 1) = calculate_level 99 + 1 ↔ (100 : Int) ∣ (99 + 1) :=
  gamification_formulas_match.2.2.2.2.2 99 (by decide)

/-- C9: any login mismatch — unknown email, or known email with a
non-verifying password — produces the identical Unauthorized error:
status 401 with detail "Invalid email or password". -/
theorem login_uniform_unauthorized :
    ∀ (findUser : String → Option StoredUser) (verify : String → String → Bool)
      (email password : String),
      (findUser email = none →
        login findUser verify email password = .err 401 "Invalid email or password")
      ∧ (∀ u, findUser email = some u → verify password u.password_hash = false →
          login findUser verify email password = .err 401 "Invalid email or password") := by
  intro findUser verify email password
  constructor
  · intro h
    unfold login
    rw [h]
  · intro u hu hv
    unfold login
    rw [hu]
    simp [hv]

/-- Witness for C9: a concrete store with no user, and one with a user
whose password fails to verify, both yield the same 401 body. -/
theorem login_uniform_unauthorized_witness :
    login (fun _ => none) (fun _ _ => true) "a@b.c" "pw"
        = .err 401 "Invalid email or password"
    ∧ login (fun _ => some { password_hash := "h" }) (fun _ _ => false) "a@b.c" "pw"
        = .err 401 "Invalid email or password" :=
  ⟨(login_uniform_unauthorized (fun _ => none) (fun _ _ => true) "a@b.c" "pw").1 rfl,
   (login_uniform_unauthorized (fun _ => some { password_hash := "h" })
      (fun _ _ => false) "a@b.c" "pw").2 { password_hash := "h" } rfl rfl⟩

/-- C10: the `RouteCreate` model accepts an omitted/null `place_ids`
(the min-length-2 constraint binds only when a list is supplied); a
supplied list of fewer than 2 ids makes `create_route` fail with the
"at least 2 places" Validation error leaving the store untouched, while
a `None` body aborts in the `len(...)` computation (`TypeError`) instead
of that Validation error. -/
theorem route_request_optional_place_ids :
    (∀ name : String, 1 ≤ name.length → name.length ≤ 200 → routeCreateValid name none)
    ∧ (∀ (name : String) (l : List Int), routeCreateValid name (some l) → 2 ≤ l.length)
    ∧ (∀ (catalog : Int → Option Place) (st : AppState) (name : String) (l : List Int),
        l.length < 2 →
        create_route catalog st name (some l) = (.validationError, st))
    ∧ (∀ (catalog : Int → Option Place) (st : AppState) (name : String),
        create_route catalog st name none = (.typeError, st))
    ∧ CreateOutcome.typeError ≠ CreateOutcome.validationError := by
  refine ⟨?_, ?_, ?_, ?_, by decide⟩
  · intro name h1 h2
    exact ⟨h1, h2, trivial⟩
  · intro name l h
    exact h.2.2
  · intro catalog st name l h
    show (if l.length < 2 then _ else _) = _
    rw [if_pos h]
  · intro catalog st name
    rfl

/-- Witness for C10: a null `place_ids` is accepted by the model and
hits the `TypeError` path; a 1-element list hits the Validation path. -/
theorem route_request_optional_place_ids_witness :
    routeCreateValid "Morning loop" none
    ∧ create_route demoCatalog signupState "Morning loop" (some [1])
        = (.validationError, signupState)
    ∧ create_route demoCatalog signupState "Morning loop" none
        = (.typeError, signupState) :=
  ⟨route_request_optional_place_ids.1 "Morning loop" (by decide) (by decide),
   route_request_optional_place_ids.2.2.1 demoCatalog signupState "Morning loop" [1]
     (by decide),
   route_request_optional_place_ids.2.2.2.1 demoCatalog signupState "Morning loop"⟩

/-- C2 counterexample: with an empty mood string and a place whose vibe
list contains the empty string, the code's guard `if mood_lower:` skips
the mood bonus (score 0), while the claim's formula awards the +2
exact-match bonus (score 2). -/
theorem recommendation_score_counterexample :
    placeScore "" [] demoPlaceEmptyVibe ≠ specPlaceScore "" [] demoPlaceEmptyVibe := by
  decide

/-- C2 (amended): provided the mood string is nonempty, every place's
score equals the claimed sum of the mood component, the interest
component, and the quality bonus. -/
theorem recommendation_score_matches_spec :
    ∀ (mood : String) (interests : List String) (p : Place), mood ≠ "" →
      placeScore mood interests p = specPlaceScore mood interests p := by
  intro mood interests p h
  show moodComponent (strLower mood) p + interestComponent (interests.map strLower) p
        + ratingBonus p = _
  rw [moodComponent_eq_spec (strLower_ne_empty h), interestComponent_eq_spec]
  rfl

/-- Witness for C2: a concrete nonempty mood on a concrete place. -/
theorem recommendation_score_matches_spec_witness :
    placeScore "relaxed" ["coffee"] demoPlace1
      = specPlaceScore "relaxed" ["coffee"] demoPlace1 :=
  recommendation_score_matches_spec "relaxed" ["coffee"] demoPlace1 (by decide)

/-- C6 counterexample: a single place whose stored summary is the empty
string is rendered with the empty summary, not with the fallback text —
the fallback fires only when the summary field is absent. -/
theorem narrative_empty_summary_counterexample :
    generate_route_narrative
      [{ name := "X", category := "c", ai_summary := some "", rating := 0,
         walking_time := 0, driving_time := 0, price_level := 0,
         tags := [], vibe := [] }] = "Visit X, where ."
    ∧ ("Visit X, where ." : String) ≠ "Visit X, where adventure awaits." := by
  constructor
  · rfl
  · decide

/-- C6 (amended): the narrative generator is a deterministic function of
the place sequence with: the placeholder on the empty sequence; the
one-sentence template on a single place, its fallback text used when the
summary field is absent (an empty-string summary is rendered as-is); and
on two or more places, the space-joined concatenation of an opening
sentence for the first place, one connecting sentence per interior place,
and a closing sentence for the last — interior summaries longer than 100
characters being cut to their first 97 characters plus the "..." marker
(so exactly 100 characters), shorter ones kept verbatim. -/
theorem narrative_structure :
    generate_route_narrative [] = "Your journey awaits!"
    ∧ (∀ p : Place, generate_route_narrative [p] =
        "Visit " ++ p.name ++ ", where " ++ p.ai_summary.getD "adventure awaits" ++ ".")
    ∧ (∀ (p0 plast : Place) (mid : List Place),
        generate_route_narrative (p0 :: (mid ++ [plast])) =
          String.intercalate " "
            (openingSentence p0 :: (mid.map middleSentence ++ [closingSentence plast])))
    ∧ (∀ s : String, s.length ≤ 100 → truncateSummary s = s)
    ∧ (∀ s : String, 100 < s.length →
        truncateSummary s = String.mk (s.data.take 97) ++ "..."
        ∧ (truncateSummary s).length = 100) := by
  refine ⟨rfl, fun p => rfl, ?_, ?_, ?_⟩
  · intro p0 plast mid
    cases mid with
    | nil => rfl
    | cons m ms =>
      show String.intercalate " "
          (openingSentence p0 ::
            ((m :: (ms ++ [plast])).dropLast.map middleSentence ++
              [closingSentence ((m :: (ms ++ [plast])).getLastD m)])) = _
      have hcat : m :: (ms ++ [plast]) = (m :: ms) ++ [plast] := by simp
      have h1 : (m :: (ms ++ [plast])).dropLast = m :: ms := by
        rw [hcat, List.dropLast_concat]
      have h2 : (m :: (ms ++ [plast])).getLastD m = plast := by
        rw [hcat, List.getLastD_concat]
      rw [h1, h2]
  · intro s h
    unfold truncateSummary
    rw [if_neg (by omega)]
  · intro s h
    have he : truncateSummary s = String.mk (s.data.take 97) ++ "..." := by
      unfold truncateSummary
      rw [if_pos (by omega)]
    refine ⟨he, ?_⟩
    rw [he]
    have hlen : s.length = s.data.length := rfl
    have htake : (String.mk (s.data.take 97)).length = 97 := by
      show (s.data.take 97).length = 97
      rw [List.length_take]
      omega
    rw [String.length_append, htake]
    rfl

/-- Witness for C6: the multi-place decomposition at a concrete 3-place
route, the no-op truncation of a short summary, and the 100-character
truncation of a 105-character summary. -/
theorem narrative_structure_witness :
    generate_route_narrative (demoPlace1 :: ([demoPlaceEmptyVibe] ++ [demoPlace2])) =
      String.intercalate " "
        (openingSentence demoPlace1 ::
          ([demoPlaceEmptyVibe].map middleSentence ++ [closingSentence demoPlace2]))
    ∧ truncateSummary "short" = "short"
    ∧ (truncateSummary (String.mk (List.replicate 105 'z'))).length = 100 :=
  ⟨narrative_structure.2.2.1 demoPlace1 demoPlace2 [demoPlaceEmptyVibe],
   narrative_structure.2.2.2.1 "short" (by decide),
   (narrative_structure.2.2.2.2 (String.mk (List.replicate 105 'z')) (by decide)).2⟩

/-- C7: marking a place visited is idempotent: an already-visited place
id leaves the whole state (visited list, its length, Street Cred)
unchanged; a first visit of an existing place appends the id once and
adds exactly 10 Street Cred; visiting twice equals visiting once; and
the visited list keeps set semantics (no duplicates). -/
theorem visit_place_idempotent :
    ∀ (placeExists : String → Bool) (st : AppState) (pid : String),
      (pid ∈ st.user.visited_places → (visit_place placeExists st pid).2 = st)
      ∧ (placeExists pid = true → pid ∉ st.user.visited_places →
          (visit_place placeExists st pid).2.user.visited_places
              = st.user.visited_places ++ [pid]
          ∧ (visit_place placeExists st pid).2.user.street_cred
              = st.user.street_cred + 10)
      ∧ (visit_place placeExists (visit_place placeExists st pid).2 pid).2
          = (visit_place placeExists st pid).2
      ∧ (st.user.visited_places.Nodup →
          (visit_place placeExists st pid).2.user.visited_places.Nodup) := by
  intro pe st pid
  refine ⟨?_, ?_, ?_, ?_⟩
  · intro hmem
    by_cases hpe : pe pid = true
    · simp [visit_place, hpe, hmem]
    · simp [visit_place, hpe]
  · intro hpe hmem
    simp [visit_place, hpe, hmem]
  · by_cases hpe : pe pid = true
    · by_cases hmem : pid ∈ st.user.visited_places
      · simp [visit_place, hpe, hmem]
      · have hmem2 : pid ∈ st.user.visited_places ++ [pid] := by simp
        simp [visit_place, hpe, hmem, hmem2]
    · simp [visit_place, hpe]
  · intro hnd
    by_cases hpe : pe pid = true
    · by_cases hmem : pid ∈ st.user.visited_places
      · simpa [visit_place, hpe, hmem] using hnd
      · simp [visit_place, hpe, hmem, List.nodup_append]
        exact hnd
    · simpa [visit_place, hpe] using hnd

/-- Witness for C7: on a state that has already visited "p1", a repeat
visit changes nothing. -/
theorem visit_place_idempotent_witness :
    (visit_place (fun _ => true)
        { user := { street_cred := 10, visited_places := ["p1"] },
          routes := [], nextRouteId := 0 } "p1").2
      = { user := { street_cred := 10, visited_places := ["p1"] },
          routes := [], nextRouteId := 0 } :=
  (visit_place_idempotent (fun _ => true)
      { user := { street_cred := 10, visited_places := ["p1"] },
        routes := [], nextRouteId := 0 } "p1").1 (by decide)

/-- C3: a place beyond the time budget or the price budget never appears
in the recommendation output: every member of the returned list satisfies
both bounds. -/
theorem recommendations_respect_hard_filter :
    ∀ (places : List Place) (mood : String) (time_available price_level : Int)
      (interests : List String) (p : Place),
      p ∈ generate_recommendations places mood time_available price_level interests →
      p.walking_time ≤ time_available ∧ p.price_level ≤ price_level := by
  intro places mood t pl interests p hp
  unfold generate_recommendations at hp
  by_cases hemp : (places.filter (recPassesFilter t pl)).isEmpty
  · rw [if_pos hemp] at hp
    exact absurd hp (List.not_mem_nil p)
  · rw [if_neg hemp] at hp
    obtain ⟨y, hy, hyp⟩ := List.mem_map.mp hp
    have hysort : y ∈ sortScoredDesc
        ((places.filter (recPassesFilter t pl)).map
          (fun q => (q, placeScore mood interests q))) := List.mem_of_mem_take hy
    have hysc : y ∈ (places.filter (recPassesFilter t pl)).map
        (fun q => (q, placeScore mood interests q)) :=
      (sortScoredDesc_perm _).mem_iff.mp hysort
    obtain ⟨q, hq, rfl⟩ := List.mem_map.mp hysc
    have hflt := List.of_mem_filter hq
    unfold recPassesFilter at hflt
    simp only [Bool.and_eq_true, decide_eq_true_eq] at hflt
    subst hyp
    exact hflt

/-- Witness for C3: a concrete one-place catalog whose place passes both
bounds and is returned. -/
theorem recommendations_respect_hard_filter_witness :
    demoPlace1 ∈ generate_recommendations [demoPlace1] "" 10 3 []
    ∧ demoPlace1.walking_time ≤ 10 ∧ demoPlace1.price_level ≤ 3 := by
  have hm : demoPlace1 ∈ generate_recommendations [demoPlace1] "" 10 3 [] := by decide
  exact ⟨hm, recommendations_respect_hard_filter [demoPlace1] "" 10 3 [] demoPlace1 hm⟩

/-- C4: the recommendation output is the score-stable-sorted filtered
catalog truncated to 6, with the internal score stripped: the output has
length ≤ 6 and equals the first 6 entries of a list that is a permutation
of the scored filtered places, carries descending scores, and — per score
class — preserves catalog order (stability), projected to the place
records (so no score field remains). -/
theorem recommendations_ranking :
    ∀ (places : List Place) (mood : String) (time_available price_level : Int)
      (interests : List String),
      (generate_recommendations places mood time_available price_level interests).length ≤ 6
      ∧ generate_recommendations places mood time_available price_level interests =
          ((sortScoredDesc
              (scoredPlaces places mood time_available price_level interests)).take 6).map
            Prod.fst
      ∧ (sortScoredDesc (scoredPlaces places mood time_available price_level interests)).Perm
          (scoredPlaces places mood time_available price_level interests)
      ∧ (sortScoredDesc
          (scoredPlaces places mood time_available price_level interests)).Pairwise
          (fun a b => b.2 ≤ a.2)
      ∧ ∀ s : Int,
          (sortScoredDesc
              (scoredPlaces places mood time_available price_level interests)).filter
              (fun y => y.2 == s) =
            (scoredPlaces places mood time_available price_level interests).filter
              (fun y => y.2 == s) := by
  intro places mood t pl interests
  have heq : generate_recommendations places mood t pl interests =
      ((sortScoredDesc (scoredPlaces places mood t pl interests)).take 6).map Prod.fst := by
    unfold generate_recommendations scoredPlaces
    by_cases hemp : (places.filter (recPassesFilter t pl)).isEmpty
    · rw [if_pos hemp]
      rw [List.isEmpty_iff] at hemp
      rw [hemp]
      rfl
    · rw [if_neg hemp]
  refine ⟨?_, heq, sortScoredDesc_perm _, sortScoredDesc_pairwise _,
    fun s => sortScoredDesc_stable _ s⟩
  rw [heq, List.length_map]
  exact List.length_take_le 6 _

/-- C1 counterexample: from a fresh signup, creating one route yields a
state satisfying the Street Cred invariant; deleting that route succeeds
but leaves Street Cred at 25 with zero routes, violating the invariant —
`delete_route` does not preserve it. -/
theorem street_cred_invariant_counterexample :
    credInvariant stateAfterOneRoute
    ∧ (delete_route stateAfterOneRoute 0).1 = .deleted
    ∧ ¬ credInvariant (delete_route stateAfterOneRoute 0).2 := by
  refine ⟨by decide, by decide, by decide⟩

/-- C1 (amended): signup establishes the Street Cred invariant, and
`visit_place` and `create_route` preserve it on every path — but
`delete_route` does not (see the counterexample): it removes the route
without touching the stored Street Cred. -/
theorem street_cred_invariant_amended :
    credInvariant signupState
    ∧ (∀ (placeExists : String → Bool) (st : AppState) (pid : String),
        credInvariant st → credInvariant (visit_place placeExists st pid).2)
    ∧ (∀ (catalog : Int → Option Place) (st : AppState) (name : String)
        (pids : Option (List Int)),
        credInvariant st → credInvariant (create_route catalog st name pids).2) := by
  refine ⟨by decide, ?_, ?_⟩
  · intro pe st pid hinv
    by_cases hpe : pe pid = true
    · by_cases hmem : pid ∈ st.user.visited_places
      · simpa [visit_place, hpe, hmem] using hinv
      · unfold credInvariant at hinv ⊢
        simp [visit_place, hpe, hmem, List.length_append]
        omega
    · simpa [visit_place, hpe] using hinv
  · intro cat st name pids hinv
    cases pids with
    | none => exact hinv
    | some l =>
      by_cases hlen : l.length < 2
      · have hrun : create_route cat st name (some l) = (.validationError, st) := by
          show (if l.length < 2 then _ else _) = _
          rw [if_pos hlen]
        rw [hrun]
        exact hinv
      · cases hres : resolvePlaces cat l with
        | error q =>
          have hrun : create_route cat st name (some l) = (.notFound q, st) := by
            show (if l.length < 2 then _ else _) = _
            rw [if_neg hlen, hres]
          rw [hrun]
          exact hinv
        | ok ps =>
          show credInvariant
            ((if l.length < 2 then (CreateOutcome.validationError, st) else _).2)
          rw [if_neg hlen, hres]
          unfold credInvariant calculate_street_cred
          simp [List.length_append]
          ring

/-- Witness for C1: the invariant, holding at signup, still holds after
a visit-place event. -/
theorem street_cred_invariant_amended_witness :
    credInvariant (visit_place (fun _ => true) signupState "p1").2 :=
  street_cred_invariant_amended.2.1 (fun _ => true) signupState "p1" (by decide)

/-- C5 counterexample: a route-creation request whose place-id list is
the single unresolvable id 5 fails with the Validation error ("at least
2 places"), not with NotFound — the claim's "any unresolvable id yields
NotFound" does not hold below 2 ids. -/
theorem create_route_notfound_counterexample :
    demoCatalog 5 = none
    ∧ (create_route demoCatalog signupState "Solo" (some [5])).1 = .validationError
    ∧ ((create_route demoCatalog signupState "Solo" (some [5])).1).isNotFound = false := by
  refine ⟨by decide, by decide, by decide⟩

/-- C5 (amended): every route-creation request with at least 2 place ids
of which at least one does not resolve fails with NotFound and persists
nothing: the store state is returned unchanged (no route inserted, owner
Street Cred untouched). -/
theorem create_route_notfound_amended :
    ∀ (catalog : Int → Option Place) (st : AppState) (name : String)
      (pids : List Int),
      2 ≤ pids.length → (∃ q ∈ pids, catalog q = none) →
      (create_route catalog st name (some pids)).2 = st
      ∧ ((create_route catalog st name (some pids)).1).isNotFound = true := by
  intro cat st name pids h2 hmiss
  obtain ⟨q, hq⟩ := resolvePlaces_error_of_missing hmiss
  have hrun : create_route cat st name (some pids) = (.notFound q, st) := by
    show (if pids.length < 2 then _ else _) = _
    rw [if_neg (by omega), hq]
  rw [hrun]
  exact ⟨rfl, rfl⟩

/-- Witness for C5: a 2-id request where id 5 does not resolve aborts
with NotFound and leaves the fresh-signup state untouched. -/
theorem create_route_notfound_amended_witness :
    (create_route demoCatalog signupState "Trip" (some [1, 5])).2 = signupState
    ∧ ((create_route demoCatalog signupState "Trip" (some [1, 5])).1).isNotFound = true :=
  create_route_notfound_amended demoCatalog signupState "Trip" [1, 5]
    (by decide) ⟨5, by decide, by decide⟩

end CityApp
